import Mathlib

/-!
Shallow embedding of the exam-generation web backend (`backend/server.py`)
for verification of its specification.

Modelling conventions:
* Python strings are Lean `String`s; `str.strip()` / `str.lower()` are modelled
  character-wise over the ASCII range (`pyStrip` / `pyLower`), which covers the
  comparisons the backend performs.
* Machine-generated UUIDs and timestamps are never inspected by any property
  considered here, so `id` fields of freshly built records are modelled by `""`
  and timestamps are omitted.
* Fallible stages (`json.loads` of the AI response, dictionary key access,
  Python list indexing) are modelled with `Option` / `Except`.
* The MongoDB exam collection is modelled as a list of `Exam` values threaded
  through `create_exam`; `insert_one` is an append.
-/

namespace ExamGen

/-- A quiz question, mirroring the pydantic `Question` model of the backend:
`question_text`, `question_type`, optional `options`, `correct_answer`,
optional `explanation`, optional base64 `image_data`. -/
structure Question where
  id : String
  question_text : String
  question_type : String
  options : Option (List String)
  correct_answer : String
  explanation : Option String
  image_data : Option String
deriving Repr, DecidableEq

/-- A persisted exam, mirroring the pydantic `Exam` model (timestamp omitted). -/
structure Exam where
  id : String
  user_id : String
  title : String
  exam_type : String
  difficulty : String
  questions : List Question
  pdf_name : Option String
deriving Repr, DecidableEq

/-- One submitted answer, mirroring the pydantic `ExamAnswer` model. -/
structure ExamAnswer where
  question_id : String
  user_answer : String
deriving Repr, DecidableEq

/-- One per-question feedback record appended by the grading loop of
`submit_exam` (the Python code builds a dict with exactly these keys). -/
structure Feedback where
  question_id : String
  is_correct : Bool
  correct_answer : String
  user_answer : String
  explanation : String
deriving Repr, DecidableEq

/-- A grading result, mirroring the pydantic `ExamResult` model
(`id` / `submitted_at` omitted; the score is kept as an exact rational). -/
structure ExamResult where
  exam_id : String
  user_id : String
  score : ℚ
  total_questions : ℕ
  correct_answers : ℕ
  answers : List ExamAnswer
  feedback : List Feedback
deriving Repr, DecidableEq

/-- Python `str.strip()`: remove leading and trailing whitespace. -/
def pyStrip (s : String) : String :=
  ⟨((s.toList.dropWhile Char.isWhitespace).reverse.dropWhile Char.isWhitespace).reverse⟩

/-- Python `str.lower()`, modelled character-wise (ASCII case folding). -/
def pyLower (s : String) : String :=
  ⟨s.toList.map Char.toLower⟩

/-- The answer comparison of `submit_exam`:
`answer.user_answer.strip().lower() == question["correct_answer"].strip().lower()`. -/
def isCorrectAnswer (user_answer correct_answer : String) : Bool :=
  pyLower (pyStrip user_answer) == pyLower (pyStrip correct_answer)

/-- The linear scan
`next((q for q in exam["questions"] if q["id"] == answer.question_id), None)`. -/
def findQuestion (questions : List Question) (question_id : String) : Option Question :=
  questions.find? (fun q => q.id == question_id)

/-- The grading loop of `submit_exam`: walk the submitted answers in order,
skip answers whose question id is not in the exam, count correct matches and
collect feedback records in submission order. -/
def gradeAnswers (questions : List Question) : List ExamAnswer → ℕ × List Feedback
  | [] => (0, [])
  | a :: rest =>
    match findQuestion questions a.question_id with
    | none => gradeAnswers questions rest
    | some q =>
      let ok := isCorrectAnswer a.user_answer q.correct_answer
      let r := gradeAnswers questions rest
      ((if ok then 1 else 0) + r.1,
       { question_id := a.question_id
         is_correct := ok
         correct_answer := q.correct_answer
         user_answer := a.user_answer
         explanation := q.explanation.getD "" } :: r.2)

/-- The grading core of the `POST /exams/submit` handler, after the exam has
been fetched: evaluate the answers, set
`score = (correct_count / total_questions) * 100 if total_questions > 0 else 0`,
and assemble the `ExamResult`. -/
def submit_exam (exam : Exam) (user_id : String) (answers : List ExamAnswer) : ExamResult :=
  let graded := gradeAnswers exam.questions answers
  let total_questions := exam.questions.length
  let score : ℚ :=
    if total_questions > 0 then ((graded.1 : ℚ) / (total_questions : ℚ)) * 100 else 0
  { exam_id := exam.id
    user_id := user_id
    score := score
    total_questions := total_questions
    correct_answers := graded.1
    answers := answers
    feedback := graded.2 }

/-- One parsed element of the AI's JSON response array, viewed as the Python
dict the backend reads keys from; a missing key is `none`.  `options` and
`explanation` are read with `.get` (missing keys become Python `None`),
`image_index` with `.get("image_index", 0)`. -/
structure QData where
  question_text : Option String
  question_type : Option String
  options : Option (List String)
  correct_answer : Option String
  explanation : Option String
  image_index : Option Int
deriving Repr, DecidableEq

/-- Conversion of one parsed element into a `Question` inside
`generate_exam_with_ai`: the required keys `question_text`, `question_type`
and `correct_answer` are read with `[]`, so a missing one raises `KeyError`
(modelled as `.error`); `options` and `explanation` are copied through. -/
def buildQuestion (q : QData) : Except String Question :=
  match q.question_text with
  | none => .error "KeyError: question_text"
  | some question_text =>
    match q.question_type with
    | none => .error "KeyError: question_type"
    | some question_type =>
      match q.correct_answer with
      | none => .error "KeyError: correct_answer"
      | some correct_answer =>
        .ok { id := "", question_text := question_text, question_type := question_type,
              options := q.options, correct_answer := correct_answer,
              explanation := q.explanation, image_data := none }

/-- The conversion loop of `generate_exam_with_ai`: elements are converted in
order and the first missing required key aborts the whole call. -/
def buildQuestions : List QData → Except String (List Question)
  | [] => .ok []
  | q :: rest =>
    match buildQuestion q with
    | .error e => .error e
    | .ok question =>
      match buildQuestions rest with
      | .error e => .error e
      | .ok questions => .ok (question :: questions)

/-- The response-handling stage of `generate_exam_with_ai`: `parsed` is the
outcome of fence stripping plus `json.loads` on the raw model response
(`none` when the remainder is not syntactically valid JSON); any exception is
caught and surfaced as a single 500-equivalent failure. -/
def generate_exam_with_ai (parsed : Option (List QData)) : Except String (List Question) :=
  match parsed with
  | none => .error "Failed to generate exam"
  | some qdata => buildQuestions qdata

/-- Python list indexing `xs[i]`: non-negative indices address from the front,
negative indices from the back, and anything else raises `IndexError`
(modelled as `none`). -/
def pyGet (xs : List String) (i : Int) : Option String :=
  if 0 ≤ i then xs[i.toNat]?
  else if 0 ≤ (xs.length : Int) + i then xs[((xs.length : Int) + i).toNat]?
  else none

/-- Conversion of one parsed element inside `generate_image_based_exam`:
`img_idx = q_data.get("image_index", 0)`; when `img_idx < len(images)` the
element is converted — reading the required keys `question_text` and
`correct_answer` (a missing one raises `KeyError`), hard-coding
`question_type = "image_based"`, and attaching `images[img_idx]` (Python
indexing, which can raise `IndexError`) — otherwise the element is skipped
(`.ok none`). -/
def buildImageQuestion (images : List String) (q : QData) : Except String (Option Question) :=
  let img_idx := q.image_index.getD 0
  if img_idx < (images.length : Int) then
    match q.question_text with
    | none => .error "KeyError: question_text"
    | some question_text =>
      match q.correct_answer with
      | none => .error "KeyError: correct_answer"
      | some correct_answer =>
        match pyGet images img_idx with
        | none => .error "IndexError"
        | some image =>
          .ok (some { id := "", question_text := question_text,
                      question_type := "image_based", options := q.options,
                      correct_answer := correct_answer, explanation := q.explanation,
                      image_data := some image })
  else .ok none

/-- The conversion loop of `generate_image_based_exam`: skipped elements
produce nothing, converted elements are collected in order, and the first
raised exception aborts the whole call. -/
def buildImageQuestions (images : List String) : List QData → Except String (List Question)
  | [] => .ok []
  | q :: rest =>
    match buildImageQuestion images q with
    | .error e => .error e
    | .ok none => buildImageQuestions images rest
    | .ok (some question) =>
      match buildImageQuestions images rest with
      | .error e => .error e
      | .ok questions => .ok (question :: questions)

/-- Model of `generate_image_based_exam`: when PDF image extraction produced no images
the call falls back to text-based generation (`textFallback` is the outcome of
that recursive pipeline); otherwise the parsed response of the vision model
(`none` = malformed JSON) is converted element by element. -/
def generate_image_based_exam (images : List String)
    (textFallback : Except String (List Question))
    (parsed : Option (List QData)) : Except String (List Question) :=
  if images.isEmpty then textFallback
  else
    match parsed with
    | none => .error "Failed to generate image-based exam"
    | some qdata => buildImageQuestions images qdata

/-- The `POST /exams/create` handler after upload validation and content
extraction: run the generation stage matching `exam_type`, and on success
assemble the `Exam` and persist it (`insert_one`, modelled as appending to the
store); a generation failure propagates as the request's failure status and
leaves the store untouched. -/
def create_exam (store : List Exam) (user_id filename exam_type difficulty : String)
    (images : List String) (textFallback : Except String (List Question))
    (parsed : Option (List QData)) : Except String Exam × List Exam :=
  let generated :=
    if exam_type == "image_based" then
      generate_image_based_exam images textFallback parsed
    else
      generate_exam_with_ai parsed
  match generated with
  | .error e => (.error e, store)
  | .ok questions =>
    let exam : Exam :=
      { id := "", user_id := user_id, title := "Exam from " ++ filename,
        exam_type := exam_type, difficulty := difficulty,
        questions := questions, pdf_name := some filename }
    (.ok exam, store ++ [exam])

/-- Python string slicing `s[:n]` (by code points). -/
def pySlice (s : String) (n : ℕ) : String :=
  ⟨s.toList.take n⟩

/-- The Turkish difficulty mapping
`{"easy": "kolay", "medium": "orta", "hard": "zor"}.get(difficulty, difficulty)`. -/
def difficulty_turkish (difficulty : String) : String :=
  if difficulty == "easy" then "kolay"
  else if difficulty == "medium" then "orta"
  else if difficulty == "hard" then "zor"
  else difficulty

/-- The `type_instruction` table of `generate_exam_with_ai`, mapping the exam
type to its prompt instruction and the `question_type` value the prompt
enforces; indexing the table with an unknown exam type raises `KeyError`
(modelled as `none`). -/
def type_instruction (exam_type : String) : Option (String × String) :=
  if exam_type == "multiple_choice" then
    some ("SADECE çoktan seçmeli sorular oluştur. Her soru için 5 seçenek (A, B, C, D, E) hazırla. Doğru cevap harfini belirt.",
          "multiple_choice")
  else if exam_type == "true_false" then
    some ("SADECE doğru/yanlış soruları oluştur. Cevap \x27Doğru\x27 veya \x27Yanlış\x27 olmalı.",
          "true_false")
  else if exam_type == "fill_blank" then
    some ("SADECE boşluk doldurma soruları oluştur. Boşluğu göstermek için \x27___\x27 kullan. Doğru cevabı ver.",
          "fill_blank")
  else if exam_type == "open_ended" then
    some ("SADECE açık uçlu sorular oluştur. Detaylı cevaplar gerektiren sorular hazırla. Örnek doğru cevap ver.",
          "open_ended")
  else if exam_type == "mixed" then
    some ("Farklı türlerde sorular oluştur: çoktan seçmeli, doğru/yanlış, boşluk doldurma ve açık uçlu soruların karışımını yap.",
          "mixed")
  else none

/-- The part of both text prompts that precedes the embedded document content:
everything of the f-string up to and including the line `İçerik:`. -/
def promptPrefix (difficulty : String) (num_questions : ℕ) (instr : String × String) : String :=
  "Sen uzman bir sınav oluşturucususun. Verilen içeriğe dayalı olarak yüksek kaliteli sınav soruları oluştur.\n\nAşağıdaki içeriğe dayalı olarak "
    ++ toString num_questions ++ " adet " ++ difficulty_turkish difficulty
    ++ " zorluk seviyesinde sınav sorusu oluştur.\n\n"
    ++ instr.1
    ++ "\n\nİçerik:\n"

/-- The part of both text prompts that follows the embedded document content:
the output-contract block, which for the `mixed` type enumerates the four
allowed `question_type` values and otherwise pins `question_type` to the
requested one. -/
def promptSuffix (exam_type : String) (instr : String × String) : String :=
  if exam_type == "mixed" then
    "\n\nÖNEMLİ: Sadece aşağıdaki yapıda geçerli bir JSON dizisi döndür:\n[\n  \x7b\n    \"question_text\": \"Soru metni burada\",\n    \"question_type\": \"multiple_choice\" veya \"true_false\" veya \"fill_blank\" veya \"open_ended\",\n    \"options\": [\"A. Seçenek 1\", \"B. Seçenek 2\", \"C. Seçenek 3\", \"D. Seçenek 4\", \"E. Seçenek 5\"] (sadece multiple_choice için),\n    \"correct_answer\": \"Doğru cevap\",\n    \"explanation\": \"Cevabın kısa açıklaması\"\n  \x7d\n]\n\nJSON dizisinden önce veya sonra herhangi bir metin ekleme. Tüm soruları ve açıklamaları Türkçe dilinde oluştur."
  else
    "\n\nÖNEMLİ: \n- TÜM sorular " ++ instr.2
      ++ " türünde olmalı\n- Sadece aşağıdaki yapıda geçerli bir JSON dizisi döndür:\n[\n  \x7b\n    \"question_text\": \"Soru metni burada\",\n    \"question_type\": \"" ++ instr.2
      ++ "\",\n    \"options\": [\"A. Seçenek 1\", \"B. Seçenek 2\", \"C. Seçenek 3\", \"D. Seçenek 4\", \"E. Seçenek 5\"] (sadece multiple_choice için),\n    \"correct_answer\": \"Doğru cevap\",\n    \"explanation\": \"Cevabın kısa açıklaması\"\n  \x7d\n]\n\nJSON dizisinden önce veya sonra herhangi bir metin ekleme.\nHer soru için question_type alanını \"" ++ instr.2
      ++ "\" olarak ayarla.\nTüm soruları ve açıklamaları Türkçe dilinde oluştur."

/-- The prompt construction of `generate_exam_with_ai` for text-based exams:
a deterministic f-string embedding `pdf_text[:4000]` between the fixed prefix
and the type-dependent output contract; an unknown exam type raises `KeyError`
at the table lookup (modelled as `none`). -/
def build_prompt (pdf_text exam_type difficulty : String) (num_questions : ℕ) : Option String :=
  match type_instruction exam_type with
  | none => none
  | some instr =>
    some (promptPrefix difficulty num_questions instr
      ++ pySlice pdf_text 4000
      ++ promptSuffix exam_type instr)

/-- Fixture for C1: a one-question exam. -/
def examC1 : Exam :=
  { id := "e1", user_id := "u1", title := "T", exam_type := "open_ended",
    difficulty := "easy",
    questions := [{ id := "q1", question_text := "Q?", question_type := "open_ended",
                    options := none, correct_answer := "A", explanation := none,
                    image_data := none }],
    pdf_name := none }

/-- Fixture for C2: a two-question exam. -/
def examC2 : Exam :=
  { id := "e2", user_id := "u2", title := "T", exam_type := "true_false",
    difficulty := "medium",
    questions :=
      [{ id := "q1", question_text := "A?", question_type := "true_false",
         options := none, correct_answer := "True", explanation := none, image_data := none },
       { id := "q2", question_text := "B?", question_type := "true_false",
         options := none, correct_answer := "False", explanation := none, image_data := none }],
    pdf_name := none }

/-- Fixture for C3: a one-question exam list with correct answer `"Paris"`. -/
def questionsC3 : List Question :=
  [{ id := "q1", question_text := "Capital of France?", question_type := "open_ended",
     options := none, correct_answer := "Paris", explanation := none, image_data := none }]

/-- Fixture for C4: a one-question exam. -/
def examC4 : Exam :=
  { id := "e4", user_id := "u4", title := "T", exam_type := "fill_blank",
    difficulty := "hard",
    questions := [{ id := "q1", question_text := "___?", question_type := "fill_blank",
                    options := none, correct_answer := "x", explanation := none,
                    image_data := none }],
    pdf_name := none }

/-- Fixture for C5 witness: one structurally valid parsed element. -/
def qdC5 : QData :=
  { question_text := some "Soru?", question_type := some "true_false",
    options := none, correct_answer := some "Doğru", explanation := some "Açıklama",
    image_index := none }

/-- Fixture for C6: a parsed image-exam element with no `question_type` key. -/
def qdC6 : QData :=
  { question_text := some "Yukarıdaki diyagrama göre hangi süreç gösterilmektedir?",
    question_type := none,
    options := some ["A. 1", "B. 2", "C. 3", "D. 4", "E. 5"],
    correct_answer := some "A", explanation := none, image_index := some 0 }

/-- Fixture for C6 witness: a parsed element with no `correct_answer` key. -/
def qdC6w : QData :=
  { question_text := some "Soru?", question_type := some "open_ended",
    options := none, correct_answer := none, explanation := none, image_index := none }

/-- Fixture for C7: a parsed image-exam element with `image_index = -2`. -/
def qdC7 : QData :=
  { question_text := some "Resimde görülen nedir?", question_type := some "image_based",
    options := some ["A. 1", "B. 2", "C. 3", "D. 4", "E. 5"],
    correct_answer := some "B", explanation := none, image_index := some (-2) }

/-- Fixture for C7 witness: a parsed element with an over-large `image_index`. -/
def qdC7w : QData :=
  { question_text := some "Verilen grafikte gösterilen trend nedir?",
    question_type := some "image_based",
    options := some ["A. 1", "B. 2", "C. 3", "D. 4", "E. 5"],
    correct_answer := some "C", explanation := none, image_index := some 7 }

/-- Fixture for C10: a parsed image-exam element with no `image_index` key. -/
def qdC10 : QData :=
  { question_text := some "Şemada belirtilen öğe hangisidir?",
    question_type := some "image_based",
    options := some ["A. 1", "B. 2", "C. 3", "D. 4", "E. 5"],
    correct_answer := some "D", explanation := some "Açıklama", image_index := none }

/-- Field equation for `submit_exam`: the denominator is always the exam's
question count. -/
theorem submit_exam_total (exam : Exam) (user_id : String) (answers : List ExamAnswer) :
    (submit_exam exam user_id answers).total_questions = exam.questions.length := rfl

/-- Field equation for `submit_exam`: the correct count comes from the grading loop. -/
theorem submit_exam_correct (exam : Exam) (user_id : String) (answers : List ExamAnswer) :
    (submit_exam exam user_id answers).correct_answers =
      (gradeAnswers exam.questions answers).1 := rfl

/-- Field equation for `submit_exam`: the feedback list comes from the grading loop. -/
theorem submit_exam_feedback (exam : Exam) (user_id : String) (answers : List ExamAnswer) :
    (submit_exam exam user_id answers).feedback = (gradeAnswers exam.questions answers).2 := rfl

/-- Field equation for `submit_exam`: the score formula. -/
theorem submit_exam_score (exam : Exam) (user_id : String) (answers : List ExamAnswer) :
    (submit_exam exam user_id answers).score =
      if 0 < exam.questions.length then
        (((gradeAnswers exam.questions answers).1 : ℚ) / (exam.questions.length : ℚ)) * 100
      else 0 := rfl

/-- The correct count is at most the number of submitted answers whose
question id occurs in the exam. -/
theorem gradeAnswers_count_le_matched (qs : List Question) (as : List ExamAnswer) :
    (gradeAnswers qs as).1 ≤
      (as.filter (fun a => (findQuestion qs a.question_id).isSome)).length := by
  induction as with
  | nil => simp [gradeAnswers]
  | cons a rest ih =>
    cases h : findQuestion qs a.question_id with
    | none =>
      simpa [gradeAnswers, h, List.filter_cons] using ih
    | some q =>
      simp only [gradeAnswers, h, List.filter_cons, Option.isSome_some, if_true]
      split <;> simp <;> omega

/-- If the linear scan finds a question, the searched id occurs among the
exam's question ids. -/
theorem findQuestion_isSome_mem {qs : List Question} {i : String}
    (h : (findQuestion qs i).isSome) : i ∈ qs.map Question.id := by
  rcases Option.isSome_iff_exists.mp h with ⟨q, hq⟩
  simp only [findQuestion] at hq
  have hmem : q ∈ qs := List.mem_of_find?_eq_some hq
  have hid : q.id = i := by simpa using List.find?_some hq
  exact hid ▸ List.mem_map_of_mem Question.id hmem

/-- An id absent from the exam's question ids makes the linear scan fail. -/
theorem findQuestion_eq_none {qs : List Question} {i : String}
    (h : i ∉ qs.map Question.id) : findQuestion qs i = none := by
  apply List.find?_eq_none.mpr
  intro q hq hbeq
  exact h ((by simpa using hbeq : q.id = i) ▸ List.mem_map_of_mem Question.id hq)

/-- When the submitted question ids are pairwise distinct, the correct count
is bounded by the exam's question count. -/
theorem gradeAnswers_count_le_total (qs : List Question) (as : List ExamAnswer)
    (h : (as.map ExamAnswer.question_id).Nodup) :
    (gradeAnswers qs as).1 ≤ qs.length := by
  classical
  set l := (as.filter (fun a => (findQuestion qs a.question_id).isSome)).map
    ExamAnswer.question_id with hl
  have hsub : l ⊆ qs.map Question.id := by
    intro x hx
    rcases List.mem_map.mp hx with ⟨a, ha, rfl⟩
    exact findQuestion_isSome_mem (by simpa using List.of_mem_filter ha)
  have hnd : l.Nodup := by
    have hsl : l.Sublist (as.map ExamAnswer.question_id) :=
      (List.filter_sublist as).map ExamAnswer.question_id
    exact List.Nodup.sublist hsl h
  have hcard : l.length ≤ (qs.map Question.id).length := by
    have hsubF : l.toFinset ⊆ (qs.map Question.id).toFinset := fun x hx =>
      List.mem_toFinset.mpr (hsub (List.mem_toFinset.mp hx))
    calc l.length = l.toFinset.card := (List.toFinset_card_of_nodup hnd).symm
      _ ≤ (qs.map Question.id).toFinset.card := Finset.card_le_card hsubF
      _ ≤ (qs.map Question.id).length := List.toFinset_card_le _
  have h2 := gradeAnswers_count_le_matched qs as
  have h3 : l.length =
      (as.filter (fun a => (findQuestion qs a.question_id).isSome)).length := by
    simp [hl]
  have h4 : (qs.map Question.id).length = qs.length := List.length_map _ _
  omega

/-- C1 (counterexample): the invariant `correct_answers <= total_questions` fails
for a submission that repeats the same question id: on a one-question exam, two
copies of the correct answer for the same question id yield
`correct_answers = 2 > 1 = total_questions` and a score above 100. -/
theorem C1_counterexample :
    ¬((submit_exam examC1 "u1" [⟨"q1", "A"⟩, ⟨"q1", "A"⟩]).correct_answers ≤
        (submit_exam examC1 "u1" [⟨"q1", "A"⟩, ⟨"q1", "A"⟩]).total_questions) ∧
    100 < (submit_exam examC1 "u1" [⟨"q1", "A"⟩, ⟨"q1", "A"⟩]).score := by
  constructor
  · decide
  · rw [submit_exam_score]
    norm_num [show (gradeAnswers examC1.questions
      [⟨"q1", "A"⟩, ⟨"q1", "A"⟩]).1 = 2 from rfl,
      show examC1.questions.length = 1 from rfl]

/-- C1 (amended): for every persisted exam and every submission whose submitted
question ids are pairwise distinct, the ExamResult produced by grading satisfies
`correct_answers <= total_questions`. -/
theorem C1_correct_le_total (exam : Exam) (user_id : String) (answers : List ExamAnswer)
    (h : (answers.map ExamAnswer.question_id).Nodup) :
    (submit_exam exam user_id answers).correct_answers ≤
      (submit_exam exam user_id answers).total_questions := by
  rw [submit_exam_correct, submit_exam_total]
  exact gradeAnswers_count_le_total exam.questions answers h

/-- Witness for C1 (amended) at a concrete exam and submission. -/
theorem C1_correct_le_total_witness :
    (submit_exam examC1 "u1" [⟨"q1", "A"⟩]).correct_answers ≤
      (submit_exam examC1 "u1" [⟨"q1", "A"⟩]).total_questions :=
  C1_correct_le_total examC1 "u1" [⟨"q1", "A"⟩] (by decide)

/-- C2: for every graded submission, the ExamResult's score equals
`100 * correct_answers / total_questions` when the exam's total question count
is positive, and equals 0 when the exam has zero questions. -/
theorem C2_score_formula (exam : Exam) (user_id : String) (answers : List ExamAnswer) :
    (0 < (submit_exam exam user_id answers).total_questions →
      (submit_exam exam user_id answers).score =
        100 * ((submit_exam exam user_id answers).correct_answers : ℚ) /
          ((submit_exam exam user_id answers).total_questions : ℚ)) ∧
    ((submit_exam exam user_id answers).total_questions = 0 →
      (submit_exam exam user_id answers).score = 0) := by
  rw [submit_exam_score, submit_exam_correct, submit_exam_total]
  constructor
  · intro h
    rw [if_pos h]
    ring
  · intro h
    rw [if_neg (by omega)]

/-- Witness for C2 at a concrete exam and submission. -/
theorem C2_score_formula_witness :
    (submit_exam examC2 "u2" [⟨"q1", "true"⟩]).score =
      100 * ((submit_exam examC2 "u2" [⟨"q1", "true"⟩]).correct_answers : ℚ) /
        ((submit_exam examC2 "u2" [⟨"q1", "true"⟩]).total_questions : ℚ) :=
  (C2_score_formula examC2 "u2" [⟨"q1", "true"⟩]).1 (by decide)

/-- C3: a submitted answer matched to a question is judged correct exactly when
the user's answer and the stored correct answer agree after stripping
leading/trailing whitespace and lowercasing both; in particular `"Paris"`,
`" paris "` and `"PARIS"` all match a correct answer of `"Paris"`. -/
theorem C3_answer_matching (qs : List Question) (a : ExamAnswer) (q : Question)
    (h : findQuestion qs a.question_id = some q) :
    ((gradeAnswers qs [a]).2.map Feedback.is_correct =
        [isCorrectAnswer a.user_answer q.correct_answer]) ∧
    (∀ u c : String,
      isCorrectAnswer u c = true ↔ pyLower (pyStrip u) = pyLower (pyStrip c)) ∧
    isCorrectAnswer "Paris" "Paris" = true ∧
    isCorrectAnswer " paris " "Paris" = true ∧
    isCorrectAnswer "PARIS" "Paris" = true := by
  refine ⟨?_, ?_, by decide, by decide, by decide⟩
  · simp [gradeAnswers, h]
  · intro u c
    simp [isCorrectAnswer]

/-- Witness for C3 at a concrete question list and answer. -/
theorem C3_answer_matching_witness :
    (gradeAnswers questionsC3 [⟨"q1", " paris "⟩]).2.map Feedback.is_correct =
      [isCorrectAnswer " paris " "Paris"] :=
  (C3_answer_matching questionsC3 ⟨"q1", " paris "⟩
    { id := "q1", question_text := "Capital of France?", question_type := "open_ended",
      options := none, correct_answer := "Paris", explanation := none, image_data := none }
    (by decide)).1

/-- Inserting an answer whose question id is not found leaves the grading
loop's output unchanged. -/
theorem gradeAnswers_skip {qs : List Question} {a : ExamAnswer}
    (h : findQuestion qs a.question_id = none) (pre post : List ExamAnswer) :
    gradeAnswers qs (pre ++ a :: post) = gradeAnswers qs (pre ++ post) := by
  induction pre with
  | nil => simp [gradeAnswers, h]
  | cons b rest ih =>
    simp only [List.cons_append, gradeAnswers, List.append_eq, ih]

/-- C4: a submitted answer whose question id matches no question of the exam
produces no feedback entry and does not change the correct count or the score;
the denominator is always the exam's total question count, never the number of
submitted answers. -/
theorem C4_unmatched_ignored (exam : Exam) (user_id : String)
    (pre post : List ExamAnswer) (a : ExamAnswer)
    (h : a.question_id ∉ exam.questions.map Question.id) :
    ((submit_exam exam user_id (pre ++ a :: post)).feedback =
        (submit_exam exam user_id (pre ++ post)).feedback ∧
      (submit_exam exam user_id (pre ++ a :: post)).correct_answers =
        (submit_exam exam user_id (pre ++ post)).correct_answers ∧
      (submit_exam exam user_id (pre ++ a :: post)).score =
        (submit_exam exam user_id (pre ++ post)).score) ∧
    ∀ answers : List ExamAnswer,
      (submit_exam exam user_id answers).total_questions = exam.questions.length := by
  have hskip := gradeAnswers_skip (findQuestion_eq_none h) pre post
  refine ⟨⟨?_, ?_, ?_⟩, fun answers => submit_exam_total exam user_id answers⟩
  · rw [submit_exam_feedback, submit_exam_feedback, hskip]
  · rw [submit_exam_correct, submit_exam_correct, hskip]
  · rw [submit_exam_score, submit_exam_score, hskip]

/-- Witness for C4 at a concrete exam and an unmatched answer. -/
theorem C4_unmatched_ignored_witness :
    (submit_exam examC4 "u4" [⟨"missing", "x"⟩, ⟨"q1", "x"⟩]).feedback =
      (submit_exam examC4 "u4" [⟨"q1", "x"⟩]).feedback :=
  (C4_unmatched_ignored examC4 "u4" [] [⟨"q1", "x"⟩] ⟨"missing", "x"⟩ (by decide)).1.1

/-- The conversion loop of `generate_exam_with_ai` preserves the element count
when it succeeds. -/
theorem buildQuestions_length {qdata : List QData} {qs : List Question}
    (h : buildQuestions qdata = .ok qs) : qs.length = qdata.length := by
  induction qdata generalizing qs with
  | nil =>
    simp only [buildQuestions, Except.ok.injEq] at h
    subst h
    rfl
  | cons q rest ih =>
    simp only [buildQuestions] at h
    cases hq : buildQuestion q with
    | error e => rw [hq] at h; cases h
    | ok question =>
      rw [hq] at h
      cases hr : buildQuestions rest with
      | error e => rw [hr] at h; cases h
      | ok questions =>
        rw [hr] at h
        simp only [Except.ok.injEq] at h
        subst h
        simp [ih hr]

/-- C5 (counterexample): an AI response that parses to the empty JSON array is
accepted: the request succeeds and persists an exam with zero questions, so an
accepted count of zero does not make the request fail (and nothing compares the
count to the requested one). -/
theorem C5_counterexample :
    (create_exam [] "u" "doc.pdf" "mixed" "medium" [] (.error "unused") (some [])).1 =
      .ok { id := "", user_id := "u", title := "Exam from " ++ "doc.pdf",
            exam_type := "mixed", difficulty := "medium", questions := [],
            pdf_name := some "doc.pdf" } ∧
    (create_exam [] "u" "doc.pdf" "mixed" "medium" [] (.error "unused") (some [])).2 =
      [{ id := "", user_id := "u", title := "Exam from " ++ "doc.pdf",
         exam_type := "mixed", difficulty := "medium", questions := [],
         pdf_name := some "doc.pdf" }] :=
  ⟨rfl, rfl⟩

/-- C5 (amended): for every successful text-path exam creation, the persisted
Exam's question count equals the number of elements the parser accepted; no
bound against the requested count (and no positivity check) is enforced. -/
theorem C5_persisted_count (store : List Exam)
    (user_id filename exam_type difficulty : String) (images : List String)
    (textFallback : Except String (List Question)) (qdata : List QData) (qs : List Question)
    (hty : exam_type ≠ "image_based") (hok : buildQuestions qdata = .ok qs) :
    (create_exam store user_id filename exam_type difficulty images textFallback (some qdata)).1 =
      .ok { id := "", user_id := user_id, title := "Exam from " ++ filename,
            exam_type := exam_type, difficulty := difficulty, questions := qs,
            pdf_name := some filename } ∧
    (create_exam store user_id filename exam_type difficulty images textFallback (some qdata)).2 =
      store ++ [{ id := "", user_id := user_id, title := "Exam from " ++ filename,
                  exam_type := exam_type, difficulty := difficulty, questions := qs,
                  pdf_name := some filename }] ∧
    qs.length = qdata.length := by
  have hbeq : (exam_type == "image_based") = false := beq_eq_false_iff_ne.mpr hty
  refine ⟨?_, ?_, buildQuestions_length hok⟩ <;>
    simp [create_exam, hbeq, generate_exam_with_ai, hok]

/-- Witness for C5 (amended) at a concrete one-element response. -/
theorem C5_persisted_count_witness :
    (create_exam [] "u" "doc.pdf" "true_false" "easy" [] (.error "unused") (some [qdC5])).2 =
      [] ++ [{ id := "", user_id := "u", title := "Exam from " ++ "doc.pdf",
               exam_type := "true_false", difficulty := "easy",
               questions := [{ id := "", question_text := "Soru?",
                               question_type := "true_false", options := none,
                               correct_answer := "Doğru", explanation := some "Açıklama",
                               image_data := none }],
               pdf_name := some "doc.pdf" }] :=
  (C5_persisted_count [] "u" "doc.pdf" "true_false" "easy" [] (.error "unused") [qdC5]
    [{ id := "", question_text := "Soru?", question_type := "true_false", options := none,
       correct_answer := "Doğru", explanation := some "Açıklama", image_data := none }]
    (by decide) (by rfl)).2.1

/-- A parsed element with a missing required key makes the per-element
conversion of the text path raise. -/
theorem buildQuestion_error_of_missing {q : QData}
    (hbad : q.question_text = none ∨ q.question_type = none ∨ q.correct_answer = none) :
    ∃ e, buildQuestion q = .error e := by
  cases hqt : q.question_text with
  | none => exact ⟨"KeyError: question_text", by simp [buildQuestion, hqt]⟩
  | some t =>
    cases hty : q.question_type with
    | none => exact ⟨"KeyError: question_type", by simp [buildQuestion, hqt, hty]⟩
    | some ty =>
      cases hca : q.correct_answer with
      | none => exact ⟨"KeyError: correct_answer", by simp [buildQuestion, hqt, hty, hca]⟩
      | some ca => simp_all

/-- A missing required key anywhere in the batch aborts the text-path
conversion loop. -/
theorem buildQuestions_error_of_missing {qdata : List QData} {q : QData}
    (hmem : q ∈ qdata)
    (hbad : q.question_text = none ∨ q.question_type = none ∨ q.correct_answer = none) :
    ∃ e, buildQuestions qdata = .error e := by
  induction qdata with
  | nil => cases hmem
  | cons p rest ih =>
    rcases List.mem_cons.mp hmem with rfl | hmem2
    · obtain ⟨e, he⟩ := buildQuestion_error_of_missing hbad
      exact ⟨e, by simp [buildQuestions, he]⟩
    · cases hp : buildQuestion p with
      | error e => exact ⟨e, by simp [buildQuestions, hp]⟩
      | ok question =>
        obtain ⟨e, he⟩ := ih hmem2
        exact ⟨e, by simp [buildQuestions, hp, he]⟩

/-- In the image path, an element whose index passes the range test but which
misses `question_text` or `correct_answer` raises at the key access. -/
theorem buildImageQuestion_error_of_missing {images : List String} {q : QData}
    (hrange : q.image_index.getD 0 < (images.length : Int))
    (hbad : q.question_text = none ∨ q.correct_answer = none) :
    ∃ e, buildImageQuestion images q = .error e := by
  cases hqt : q.question_text with
  | none => exact ⟨"KeyError: question_text", by simp [buildImageQuestion, hrange, hqt]⟩
  | some t =>
    cases hca : q.correct_answer with
    | none => exact ⟨"KeyError: correct_answer", by simp [buildImageQuestion, hrange, hqt, hca]⟩
    | some ca => simp_all

/-- A raising element anywhere in the batch aborts the image-path conversion
loop. -/
theorem buildImageQuestions_error_of_missing {images : List String} {qdata : List QData}
    {q : QData} (hmem : q ∈ qdata)
    (hrange : q.image_index.getD 0 < (images.length : Int))
    (hbad : q.question_text = none ∨ q.correct_answer = none) :
    ∃ e, buildImageQuestions images qdata = .error e := by
  induction qdata with
  | nil => cases hmem
  | cons p rest ih =>
    rcases List.mem_cons.mp hmem with rfl | hmem2
    · obtain ⟨e, he⟩ := buildImageQuestion_error_of_missing hrange hbad
      exact ⟨e, by simp [buildImageQuestions, he]⟩
    · cases hp : buildImageQuestion images p with
      | error e => exact ⟨e, by simp [buildImageQuestions, hp]⟩
      | ok oq =>
        obtain ⟨e, he⟩ := ih hmem2
        cases oq with
        | none => exact ⟨e, by simp [buildImageQuestions, hp, he]⟩
        | some question => exact ⟨e, by simp [buildImageQuestions, hp, he]⟩

/-- C6 (counterexample): in image-based generation an element with no
`question_type` key is NOT rejected: the call succeeds and the element is
converted (its type is hard-coded to `image_based`), contradicting the claim
that a missing `question_type` aborts the whole generation call. -/
theorem C6_counterexample :
    generate_image_based_exam ["IMG0"] (.error "unused") (some [qdC6]) =
      .ok [{ id := "",
             question_text := "Yukarıdaki diyagrama göre hangi süreç gösterilmektedir?",
             question_type := "image_based",
             options := some ["A. 1", "B. 2", "C. 3", "D. 4", "E. 5"],
             correct_answer := "A", explanation := none, image_data := some "IMG0" }] := rfl

/-- C6 (amended): in text-based generation a parsed element missing
`question_text`, `question_type` or `correct_answer` aborts the whole call; in
image-based generation `question_type` is never read, and a missing
`question_text` or `correct_answer` aborts the call when the element's image
index is within range; a failed generation persists nothing. -/
theorem C6_missing_field (qdata : List QData) (q : QData) (images : List String)
    (textFallback : Except String (List Question)) (hmem : q ∈ qdata) :
    ((q.question_text = none ∨ q.question_type = none ∨ q.correct_answer = none) →
      (generate_exam_with_ai (some qdata)).isOk = false) ∧
    (images ≠ [] → q.image_index.getD 0 < (images.length : Int) →
      (q.question_text = none ∨ q.correct_answer = none) →
      (generate_image_based_exam images textFallback (some qdata)).isOk = false) ∧
    (∀ (store : List Exam) (user_id filename exam_type difficulty : String)
        (parsed : Option (List QData)),
      (if exam_type == "image_based" then
          generate_image_based_exam images textFallback parsed
        else generate_exam_with_ai parsed).isOk = false →
      (create_exam store user_id filename exam_type difficulty images textFallback
          parsed).1.isOk = false ∧
      (create_exam store user_id filename exam_type difficulty images textFallback
          parsed).2 = store) := by
  refine ⟨?_, ?_, ?_⟩
  · intro hbad
    obtain ⟨e, he⟩ := buildQuestions_error_of_missing hmem hbad
    simp [generate_exam_with_ai, he, Except.isOk, Except.toBool]
  · intro hne hrange hbad
    have hempty : images.isEmpty = false := by simpa using hne
    obtain ⟨e, he⟩ := buildImageQuestions_error_of_missing hmem hrange hbad
    simp [generate_image_based_exam, hempty, he, Except.isOk, Except.toBool]
  · intro store user_id filename exam_type difficulty parsed hgen
    have hcreate : create_exam store user_id filename exam_type difficulty images textFallback
        parsed =
        match (if exam_type == "image_based" then
            generate_image_based_exam images textFallback parsed
          else generate_exam_with_ai parsed) with
        | .error e => (.error e, store)
        | .ok questions =>
          (.ok { id := "", user_id := user_id, title := "Exam from " ++ filename,
                 exam_type := exam_type, difficulty := difficulty,
                 questions := questions, pdf_name := some filename },
           store ++ [{ id := "", user_id := user_id, title := "Exam from " ++ filename,
                       exam_type := exam_type, difficulty := difficulty,
                       questions := questions, pdf_name := some filename }]) := rfl
    cases hg : (if exam_type == "image_based" then
        generate_image_based_exam images textFallback parsed
      else generate_exam_with_ai parsed) with
    | error e =>
      rw [hcreate, hg]
      exact ⟨rfl, rfl⟩
    | ok questions =>
      rw [hg] at hgen
      simp [Except.isOk, Except.toBool] at hgen

/-- Witness for C6 (amended): a one-element batch with no `correct_answer` key
aborts the text-path generation. -/
theorem C6_missing_field_witness :
    (generate_exam_with_ai (some [qdC6w])).isOk = false :=
  (C6_missing_field [qdC6w] qdC6w [] (.error "unused") (by decide)).1 (by decide)

/-- Dropping a skipped element leaves the image-path conversion loop
unchanged. -/
theorem buildImageQuestions_skip {images : List String} {q : QData}
    (h : buildImageQuestion images q = .ok none) (pre post : List QData) :
    buildImageQuestions images (pre ++ q :: post) = buildImageQuestions images (pre ++ post) := by
  induction pre with
  | nil => simp [buildImageQuestions, h]
  | cons p rest ih =>
    simp only [List.cons_append, buildImageQuestions, List.append_eq, ih]

/-- C7 (counterexample): an element whose `image_index` is out of range of the
extracted-image list is NOT always silently dropped: with one image and
`image_index = -2` the range test `-2 < 1` passes, Python indexing raises
`IndexError`, and the whole call aborts with an error instead of dropping the
element. -/
theorem C7_counterexample :
    generate_image_based_exam ["I0"] (.error "unused") (some [qdC7]) =
      .error "IndexError" := rfl

/-- C7 (amended): an element whose `image_index` is at least the image count is
silently dropped (no error, no Question, no effect on the rest of the batch);
an index in `[0, count)` attaches the image at that index; a negative index is
resolved Python-style from the end of the list when `count + index ≥ 0` and
aborts the call with `IndexError` otherwise. -/
theorem C7_image_index (images : List String) (q : QData) (pre post : List QData) :
    ((images.length : Int) ≤ q.image_index.getD 0 →
      buildImageQuestion images q = .ok none ∧
      buildImageQuestions images (pre ++ q :: post) =
        buildImageQuestions images (pre ++ post)) ∧
    (∀ i : ℕ, q.image_index.getD 0 = (i : Int) → i < images.length →
      ∀ qt ca, q.question_text = some qt → q.correct_answer = some ca →
        buildImageQuestion images q =
          .ok (some { id := "", question_text := qt, question_type := "image_based",
                      options := q.options, correct_answer := ca,
                      explanation := q.explanation, image_data := images[i]? })) ∧
    (q.image_index.getD 0 < 0 → 0 ≤ (images.length : Int) + q.image_index.getD 0 →
      ∀ qt ca, q.question_text = some qt → q.correct_answer = some ca →
        buildImageQuestion images q =
          .ok (some { id := "", question_text := qt, question_type := "image_based",
                      options := q.options, correct_answer := ca,
                      explanation := q.explanation,
                      image_data :=
                        images[((images.length : Int) + q.image_index.getD 0).toNat]? })) ∧
    ((images.length : Int) + q.image_index.getD 0 < 0 →
      ∀ qt ca, q.question_text = some qt → q.correct_answer = some ca →
        buildImageQuestion images q = .error "IndexError") := by
  refine ⟨?_, ?_, ?_, ?_⟩
  · intro hge
    have hdrop : buildImageQuestion images q = .ok none := by
      simp only [buildImageQuestion]
      rw [if_neg (by omega)]
    exact ⟨hdrop, buildImageQuestions_skip hdrop pre post⟩
  · intro i hi hilt qt ca hqt hca
    have hsome : images[i]? = some images[i] := List.getElem?_eq_getElem hilt
    simp only [buildImageQuestion, hi, hqt, hca]
    rw [if_pos (by exact_mod_cast hilt)]
    simp only [pyGet, if_pos (by omega : (0 : Int) ≤ (i : Int)), Int.toNat_ofNat]
    rw [hsome]
  · intro hneg hge qt ca hqt hca
    have hidx : ((images.length : Int) + q.image_index.getD 0).toNat < images.length := by
      omega
    have hsome : images[((images.length : Int) + q.image_index.getD 0).toNat]? =
        some images[((images.length : Int) + q.image_index.getD 0).toNat] :=
      List.getElem?_eq_getElem hidx
    simp only [buildImageQuestion, hqt, hca]
    rw [if_pos (by omega)]
    simp only [pyGet]
    rw [if_neg (by omega), if_pos hge, hsome]
  · intro hlow qt ca hqt hca
    simp only [buildImageQuestion, hqt, hca]
    rw [if_pos (by omega)]
    simp only [pyGet]
    rw [if_neg (by omega), if_neg (by omega)]

/-- Witness for C7 (amended): with one image, an element with `image_index = 7`
is dropped and contributes nothing to the batch. -/
theorem C7_image_index_witness :
    buildImageQuestion ["I0"] qdC7w = .ok none ∧
    buildImageQuestions ["I0"] ([] ++ qdC7w :: []) = buildImageQuestions ["I0"] ([] ++ []) :=
  (C7_image_index ["I0"] qdC7w [] []).1 (by decide)

/-- C8: when the model's response (after fence stripping) is not syntactically
valid JSON, the request fails and the exam store is unchanged — no Exam (and
hence no Question) is persisted. (On the image path the parsed response is
only reached when at least one image was extracted.) -/
theorem C8_malformed_response (store : List Exam)
    (user_id filename exam_type difficulty : String) (images : List String)
    (textFallback : Except String (List Question))
    (h : exam_type ≠ "image_based" ∨ images ≠ []) :
    (create_exam store user_id filename exam_type difficulty images textFallback none).1.isOk =
      false ∧
    (create_exam store user_id filename exam_type difficulty images textFallback none).2 =
      store := by
  by_cases hty : exam_type = "image_based"
  · have himg : images ≠ [] := by
      rcases h with h | h
      · exact absurd hty h
      · exact h
    have hempty : images.isEmpty = false := by simpa using himg
    constructor <;>
      simp [create_exam, hty, generate_image_based_exam, hempty, Except.isOk, Except.toBool]
  · have hbeq : (exam_type == "image_based") = false := beq_eq_false_iff_ne.mpr hty
    constructor <;>
      simp [create_exam, hbeq, generate_exam_with_ai, Except.isOk, Except.toBool]

/-- Witness for C8 at a concrete request on the text path. -/
theorem C8_malformed_response_witness :
    (create_exam [] "u" "doc.pdf" "mixed" "easy" [] (.error "unused") none).1.isOk = false ∧
    (create_exam [] "u" "doc.pdf" "mixed" "easy" [] (.error "unused") none).2 = [] :=
  C8_malformed_response [] "u" "doc.pdf" "mixed" "easy" [] (.error "unused")
    (Or.inl (by decide))

/-- Python slicing `s[:n]` keeps the whole string when it is short enough. -/
theorem pySlice_eq_self {s : String} {n : ℕ} (h : s.toList.length ≤ n) : pySlice s n = s := by
  cases s with
  | mk data =>
    simp only [pySlice]
    exact congrArg String.mk (List.take_of_length_le h)

/-- C9: the text prompt embeds exactly `pdf_text[:4000]` between a fixed prefix
and the type-dependent output contract: content of length at most 4000 appears
in full, and longer content is silently truncated to its first 4000
characters. -/
theorem C9_content_truncation (pdf_text exam_type difficulty : String) (num_questions : ℕ)
    (instr : String × String) (h : type_instruction exam_type = some instr) :
    build_prompt pdf_text exam_type difficulty num_questions =
      some (promptPrefix difficulty num_questions instr
        ++ pySlice pdf_text 4000 ++ promptSuffix exam_type instr) ∧
    (pdf_text.toList.length ≤ 4000 → pySlice pdf_text 4000 = pdf_text) ∧
    (pySlice pdf_text 4000).toList = pdf_text.toList.take 4000 ∧
    (4000 ≤ pdf_text.toList.length → (pySlice pdf_text 4000).toList.length = 4000) := by
  refine ⟨by simp [build_prompt, h], fun hle => pySlice_eq_self hle, rfl, fun hge => ?_⟩
  show (pdf_text.toList.take 4000).length = 4000
  rw [List.length_take]
  omega

/-- Witness for C9: a short content string is embedded in full. -/
theorem C9_content_truncation_witness :
    pySlice "Kısa içerik" 4000 = "Kısa içerik" :=
  (C9_content_truncation "Kısa içerik" "open_ended" "easy" 5
    ("SADECE açık uçlu sorular oluştur. Detaylı cevaplar gerektiren sorular hazırla. Örnek doğru cevap ver.",
     "open_ended") (by decide)).2.1 (by decide)

/-- C10: an image-path element with no `image_index` key defaults to index 0:
it is not dropped, and the first extracted image is attached to the resulting
Question. -/
theorem C10_missing_image_index (images : List String) (q : QData) (img qt ca : String)
    (h0 : images[0]? = some img) (hidx : q.image_index = none)
    (hqt : q.question_text = some qt) (hca : q.correct_answer = some ca) :
    buildImageQuestion images q =
      .ok (some { id := "", question_text := qt, question_type := "image_based",
                  options := q.options, correct_answer := ca,
                  explanation := q.explanation, image_data := some img }) := by
  have hlen : 0 < images.length := by
    cases images with
    | nil => simp at h0
    | cons a l => simp
  simp only [buildImageQuestion, hidx, Option.getD_none, hqt, hca]
  rw [if_pos (by exact_mod_cast hlen)]
  simp only [pyGet, if_pos (by omega : (0 : Int) ≤ 0), Int.toNat_zero]
  rw [h0]

/-- Witness for C10 at a concrete element and image list. -/
theorem C10_missing_image_index_witness :
    buildImageQuestion ["IMG0", "IMG1"] qdC10 =
      .ok (some { id := "", question_text := "Şemada belirtilen öğe hangisidir?",
                  question_type := "image_based", options := qdC10.options,
                  correct_answer := "D", explanation := qdC10.explanation,
                  image_data := some "IMG0" }) :=
  C10_missing_image_index ["IMG0", "IMG1"] qdC10 "IMG0"
    "Şemada belirtilen öğe hangisidir?" "D" (by decide) (by decide) (by decide) (by decide)

end ExamGen
